import Mathlib

/-!
Shallow embedding of `src/models/mic_speech_sentiment.py` (component
`MicSpeechSentiment`): the reading cache, the listen loop, the lifecycle
commands and `reconfigure`.  Time is modelled as `Int` seconds; the
`datetime.isoformat` rendering is modelled by an injective function on the
timestamp.  `asyncio` task creation and cancellation are instrumented by
counters (`tasksSpawned`, `cancelRequests`) so that "spawns a task" and
"requests cancellation" are observable in the state.
-/

namespace MicSentiment

/-- Values appearing in command/response maps (Viam `ValueTypes`). -/
inductive Value where
  | str : String → Value
  | bool : Bool → Value
  | int : Int → Value
deriving DecidableEq

/-- Association-list lookup, modelling Python `dict.get` / `dict[...]`. -/
def alookup {α : Type} (k : String) : List (String × α) → Option α
  | [] => none
  | (k2, v) :: rest => if k2 = k then some v else alookup k rest

/-- The stored reading: `self.latest_reading = {"text_heard": ..., "sentiment": ..., "time": datetime.now()}`. -/
structure Reading where
  text_heard : String
  sentiment : String
  time : Int
deriving DecidableEq

/-- Mutable state of the `MicSpeechSentiment` component.  The first six
fields mirror the attributes set in `__init__`; `tasksSpawned` counts
`asyncio.create_task` calls and `cancelRequests` counts `.cancel()` calls. -/
structure MicState where
  speech_service : Option Nat
  sentiment_service : Option Nat
  reading_expiration_seconds : Int
  latest_reading : Option Reading
  listening_task : Option Nat
  is_listening : Bool
  tasksSpawned : Nat
  cancelRequests : Nat
deriving DecidableEq

/-- State after `__init__`. -/
def initState : MicState :=
  { speech_service := none
    sentiment_service := none
    reading_expiration_seconds := 20
    latest_reading := none
    listening_task := none
    is_listening := false
    tasksSpawned := 0
    cancelRequests := 0 }

/-- Models `datetime.isoformat()` applied to a timestamp. -/
def isoformat (t : Int) : String := "iso:" ++ toString t

/-- Output of `get_readings`. -/
structure ReadOut where
  text_heard : String
  sentiment : String
  time : String
  is_listening : Bool
deriving DecidableEq

/-- `get_readings`: serve the cached reading while fresh, lazily clearing it
on expiry; otherwise synthesize the default reading. -/
def get_readings (s : MicState) (now : Int) : MicState × ReadOut :=
  match s.latest_reading with
  | none =>
      (s, { text_heard := "", sentiment := "None", time := isoformat now,
            is_listening := s.is_listening })
  | some r =>
      if now > r.time + s.reading_expiration_seconds then
        ({ s with latest_reading := none },
         { text_heard := "", sentiment := "None", time := isoformat now,
           is_listening := s.is_listening })
      else
        (s, { text_heard := r.text_heard, sentiment := r.sentiment,
              time := isoformat r.time, is_listening := s.is_listening })

/-- `start_listening`: no-op when already listening, otherwise set the flag
and spawn the loop task. -/
def start_listening (s : MicState) : MicState :=
  if s.is_listening then s
  else
    { s with is_listening := true
             listening_task := some s.tasksSpawned
             tasksSpawned := s.tasksSpawned + 1 }

/-- The `get_status` response map. -/
def get_status (s : MicState) : List (String × Value) :=
  [("is_listening", .bool s.is_listening),
   ("has_reading", .bool s.latest_reading.isSome),
   ("reading_expiration_seconds", .int s.reading_expiration_seconds)]

/-- The command string: `command.get("command", "")`. -/
def getCmd (command : List (String × String)) : String :=
  (alookup "command" command).getD ""

/-- `do_command`: dispatch on the `"command"` key. -/
def do_command (s : MicState) (command : List (String × String)) :
    MicState × List (String × Value) :=
  let cmd := getCmd command
  if cmd = "start_listening" then
    (start_listening s, [("status", .str "started")])
  else if cmd = "stop_listening" then
    let s1 := { s with is_listening := false }
    let s2 :=
      match s1.listening_task with
      | some _ => { s1 with cancelRequests := s1.cancelRequests + 1 }
      | none => s1
    (s2, [("status", .str "stopped")])
  else if cmd = "get_status" then
    (s, get_status s)
  else
    (s, [("error", .str ("Unknown command: " ++ cmd))])

/-- Configuration attributes as extracted by `struct_to_dict`. -/
structure ComponentConfig where
  speech_service : Option String
  sentiment_service : Option String
  reading_expiration_seconds : Option Int
deriving DecidableEq

/-- Python truthiness of an optional string attribute (`if speech_service_name:`). -/
def truthyName : Option String → Bool
  | some n => !n.isEmpty
  | none => false

/-- Errors raised by `reconfigure`. -/
inductive ConfigError where
  | keyError (name : String)
  | missingSpeech
  | missingSentiment
deriving DecidableEq

/-- The `if speech_service_name:` block: resolve the dependency by name;
a failed dictionary lookup raises `KeyError`. -/
def bindSpeech (s : MicState) (name : Option String) (deps : List (String × Nat)) :
    MicState × Option ConfigError :=
  match name with
  | some n =>
      if n.isEmpty then (s, none)
      else
        match alookup n deps with
        | some ref => ({ s with speech_service := some ref }, none)
        | none => (s, some (.keyError n))
  | none => (s, none)

/-- The `if sentiment_service_name:` block. -/
def bindSentiment (s : MicState) (name : Option String) (deps : List (String × Nat)) :
    MicState × Option ConfigError :=
  match name with
  | some n =>
      if n.isEmpty then (s, none)
      else
        match alookup n deps with
        | some ref => ({ s with sentiment_service := some ref }, none)
        | none => (s, some (.keyError n))
  | none => (s, none)

/-- `reconfigure`: applies the expiration window, binds the two services,
validates that both are present, then starts the loop if it is not already
running.  Python mutates `self` in place, so the partially updated state is
returned alongside the raised error. -/
def reconfigure (s : MicState) (cfg : ComponentConfig) (deps : List (String × Nat)) :
    MicState × Except ConfigError Unit :=
  match bindSpeech
      { s with reading_expiration_seconds := cfg.reading_expiration_seconds.getD 20 }
      cfg.speech_service deps with
  | (s2, some e) => (s2, .error e)
  | (s2, none) =>
    match bindSentiment s2 cfg.sentiment_service deps with
    | (s3, some e) => (s3, .error e)
    | (s3, none) =>
      if s3.speech_service = none then (s3, .error .missingSpeech)
      else if s3.sentiment_service = none then (s3, .error .missingSentiment)
      else if s3.is_listening then (s3, .ok ()) else (start_listening s3, .ok ())

/-- Python `text and text.strip()` is falsy exactly when the string is empty
or all whitespace. -/
def isBlank (t : String) : Bool := t.data.all fun c => c.isWhitespace

/-- Observable outcome of one body execution of the listen loop. -/
structure IterOut where
  state : MicState
  errorLogged : Bool
  pause : Nat
  classifierCalled : Bool
deriving DecidableEq

/-- One iteration of `_listen_loop`'s inner `try`: listen, optionally
classify, store the reading; any `Exception` is caught at the iteration
boundary, logged, and followed by `asyncio.sleep(1)`. -/
def listenIter (s : MicState) (now : Int) (speechRes : Except Unit String)
    (classifyRes : Except Unit (List (String × String))) : IterOut :=
  match speechRes with
  | .error _ => { state := s, errorLogged := true, pause := 1, classifierCalled := false }
  | .ok text =>
      if isBlank text then
        { state := s, errorLogged := false, pause := 0, classifierCalled := false }
      else
        match classifyRes with
        | .error _ =>
            { state := s, errorLogged := true, pause := 1, classifierCalled := true }
        | .ok resp =>
            let sentiment := (alookup "sentiment" resp).getD "Unknown"
            let r : Reading := { text_heard := text, sentiment := sentiment, time := now }
            { state := { s with latest_reading := some r }
              errorLogged := false, pause := 0, classifierCalled := true }

/-- What happens to the loop during one pass: a normal iteration driven by
the external services, a `CancelledError` raised inside the iteration, a
fault escaping the per-iteration guard, or an external clearing of the
liveness flag observed at the next `while` check. -/
inductive LoopEvent where
  | speech (now : Int) (speechRes : Except Unit String)
      (classifyRes : Except Unit (List (String × String)))
  | cancelled
  | fatal
  | externalStop

/-- How the loop task finished. -/
inductive ExitKind where
  | cancelledClean
  | fatalFault
  | normal
deriving DecidableEq

/-- `_listen_loop` run against a finite schedule of events.  `none` means
the loop is still running when the schedule ends; `some (s, k)` gives the
state after the `finally` block (which clears `is_listening`) and the exit
path taken. -/
def runLoop (s : MicState) : List LoopEvent → Option (MicState × ExitKind)
  | [] =>
      if s.is_listening then none
      else some ({ s with is_listening := false }, .normal)
  | e :: rest =>
      if s.is_listening then
        match e with
        | .cancelled => some ({ s with is_listening := false }, .cancelledClean)
        | .fatal => some ({ s with is_listening := false }, .fatalFault)
        | .externalStop => runLoop { s with is_listening := false } rest
        | .speech now sp cl => runLoop (listenIter s now sp cl).state rest
      else some ({ s with is_listening := false }, .normal)

/-! ### Sample states used by witnesses and counterexamples -/

/-- A fully configured component whose listen loop is running. -/
def listeningState : MicState :=
  { initState with
      speech_service := some 1
      sentiment_service := some 2
      is_listening := true
      listening_task := some 0
      tasksSpawned := 1 }

/-- A sample cached reading. -/
def sampleReading : Reading :=
  { text_heard := "I am happy", sentiment := "positive", time := 100 }

/-- `listeningState` holding `sampleReading`. -/
def sampleState : MicState :=
  { listeningState with latest_reading := some sampleReading }

/-! ### Theorems -/

/-- C1: `get_readings` returns the stored reading (text, sentiment, ISO
timestamp) unchanged while the current time is not strictly past the stored
timestamp plus the expiration window; with no stored reading, or strictly
past that bound (in which case the stored reading is cleared so that
`get_status` then reports `has_reading = false`), it returns the synthesized
default `{text_heard = "", sentiment = "None", time = now}`; every branch
carries the current `is_listening` flag. -/
theorem get_readings_spec (s : MicState) (now : Int) :
    (s.latest_reading = none →
      get_readings s now =
        (s, { text_heard := "", sentiment := "None", time := isoformat now,
              is_listening := s.is_listening })) ∧
    (∀ r, s.latest_reading = some r →
      (¬ now > r.time + s.reading_expiration_seconds →
        get_readings s now =
          (s, { text_heard := r.text_heard, sentiment := r.sentiment,
                time := isoformat r.time, is_listening := s.is_listening })) ∧
      (now > r.time + s.reading_expiration_seconds →
        (get_readings s now).2 =
          { text_heard := "", sentiment := "None", time := isoformat now,
            is_listening := s.is_listening } ∧
        (get_readings s now).1 = { s with latest_reading := none } ∧
        alookup "has_reading" (get_status (get_readings s now).1) =
          some (.bool false))) := by
  refine ⟨fun h => by simp [get_readings, h], fun r hr => ⟨fun hle => ?_, fun hgt => ?_⟩⟩
  · simp [get_readings, hr, hle]
  · simp [get_readings, hr, hgt, get_status, alookup]

/-- Witness for C1 at a concrete state: a fresh reading is served verbatim. -/
theorem get_readings_spec_witness :
    get_readings sampleState 110 =
      (sampleState, { text_heard := "I am happy", sentiment := "positive",
                      time := isoformat 100, is_listening := true }) := by
  exact ((get_readings_spec sampleState 110).2 sampleReading rfl).1 (by decide)

/-- C6: any command whose `"command"` value is not one of the three known
commands (a map without the key behaves as the empty-string command) gets
the error payload `{"error": "Unknown command: <cmd>"}` and leaves the
state untouched. -/
theorem do_command_unknown (s : MicState) (m : List (String × String))
    (h1 : getCmd m ≠ "start_listening") (h2 : getCmd m ≠ "stop_listening")
    (h3 : getCmd m ≠ "get_status") :
    do_command s m = (s, [("error", .str ("Unknown command: " ++ getCmd m))]) ∧
    (alookup "command" m = none → getCmd m = "") := by
  refine ⟨by simp [do_command, h1, h2, h3], fun h => by simp [getCmd, h]⟩

/-- Witness for C6: `frobnicate` is rejected without touching the state. -/
theorem do_command_unknown_witness :
    do_command initState [("command", "frobnicate")] =
      (initState, [("error", .str ("Unknown command: " ++ "frobnicate"))]) := by
  exact (do_command_unknown initState [("command", "frobnicate")]
    (by decide) (by decide) (by decide)).1

/-- C7: non-blank text whose classifier response lacks the `"sentiment"`
key stores `{text_heard = text, sentiment = "Unknown", time = now}` without
failing the iteration. -/
theorem listenIter_missing_sentiment (s : MicState) (now : Int) (text : String)
    (resp : List (String × String)) (ht : isBlank text = false)
    (hk : alookup "sentiment" resp = none) :
    listenIter s now (.ok text) (.ok resp) =
      { state := { s with latest_reading := some (Reading.mk text "Unknown" now) }
        errorLogged := false, pause := 0, classifierCalled := true } := by
  simp [listenIter, ht, hk]

/-- Witness for C7 at a concrete iteration. -/
theorem listenIter_missing_sentiment_witness :
    listenIter listeningState 7 (.ok "hello") (.ok [("label", "pos")]) =
      { state := { listeningState with
                     latest_reading := some (Reading.mk "hello" "Unknown" 7) }
        errorLogged := false, pause := 0, classifierCalled := true } := by
  exact listenIter_missing_sentiment listeningState 7 "hello" [("label", "pos")]
    (by decide) (by decide)

/-- C8: an empty or whitespace-only utterance skips the classifier, leaves
the stored reading (hence its expiry clock) untouched, and the loop moves
straight to the next iteration with no pause. -/
theorem listenIter_blank_skip (s : MicState) (now : Int) (text : String)
    (cl : Except Unit (List (String × String)))
    (ht : isBlank text = true) (hl : s.is_listening = true) :
    listenIter s now (.ok text) cl =
      { state := s, errorLogged := false, pause := 0, classifierCalled := false } ∧
    ∀ rest, runLoop s (.speech now (.ok text) cl :: rest) = runLoop s rest := by
  refine ⟨by simp [listenIter, ht], fun rest => ?_⟩
  simp [runLoop, hl, listenIter, ht]

/-- Witness for C8 at a concrete whitespace-only utterance. -/
theorem listenIter_blank_skip_witness :
    (listenIter sampleState 200 (.ok "  ") (.ok [])) =
      { state := sampleState, errorLogged := false, pause := 0,
        classifierCalled := false } := by
  exact (listenIter_blank_skip sampleState 200 "  " (.ok []) (by decide) rfl).1

/-- C2: a failing speech call, or a failing classifier call on non-blank
text, is caught at the iteration boundary: the error is logged, a fixed
pause of 1 time unit follows, the stored reading (indeed the whole state)
is unchanged, and the loop goes on to the next scheduled iteration rather
than terminating. -/
theorem listen_loop_fault_isolated (s : MicState) (now : Int)
    (sp : Except Unit String) (cl : Except Unit (List (String × String)))
    (hl : s.is_listening = true)
    (hfail : (∃ e, sp = .error e) ∨
      ∃ t, sp = .ok t ∧ isBlank t = false ∧ ∃ e, cl = .error e) :
    (listenIter s now sp cl).errorLogged = true ∧
    (listenIter s now sp cl).pause = 1 ∧
    (listenIter s now sp cl).state = s ∧
    ∀ rest, runLoop s (.speech now sp cl :: rest) = runLoop s rest := by
  rcases hfail with ⟨e, he⟩ | ⟨t, hsp, hb, e, hcl⟩
  · subst he
    exact ⟨rfl, rfl, rfl, fun rest => by simp [runLoop, hl, listenIter]⟩
  · subst hsp; subst hcl
    refine ⟨?_, ?_, ?_, fun rest => ?_⟩ <;> simp [listenIter, hb, runLoop, hl]

/-- Witness for C2: a failed speech call leaves the state intact and the
loop still running. -/
theorem listen_loop_fault_isolated_witness :
    (listenIter sampleState 7 (.error ()) (.ok [])).state = sampleState ∧
    runLoop sampleState [.speech 7 (.error ()) (.ok [])] = none := by
  have h := listen_loop_fault_isolated sampleState 7 (.error ()) (.ok [])
    rfl (.inl ⟨(), rfl⟩)
  exact ⟨h.2.2.1, (h.2.2.2 []).trans rfl⟩

/-- C3: `start_listening` while the loop is running changes nothing and
spawns no task, yet `do_command` still answers `{"status": "started"}`; two
successive starts from any state leave exactly one spawned loop. -/
theorem start_listening_idempotent (s : MicState) :
    (s.is_listening = true →
      do_command s [("command", "start_listening")] =
        (s, [("status", .str "started")])) ∧
    (do_command s [("command", "start_listening")]).2 =
      [("status", .str "started")] ∧
    (do_command (do_command s [("command", "start_listening")]).1
        [("command", "start_listening")]).1 =
      (do_command s [("command", "start_listening")]).1 ∧
    (do_command (do_command s [("command", "start_listening")]).1
        [("command", "start_listening")]).1.tasksSpawned ≤ s.tasksSpawned + 1 := by
  by_cases h : s.is_listening
  · refine ⟨fun _ => ?_, ?_, ?_, ?_⟩ <;>
      simp [do_command, getCmd, alookup, start_listening, h]
  · refine ⟨fun hl => absurd hl (by simp [h]), ?_, ?_, ?_⟩ <;>
      simp [do_command, getCmd, alookup, start_listening, h]

/-- Witness for C3: starting an already-listening component is a no-op
that still reports "started". -/
theorem start_listening_idempotent_witness :
    do_command listeningState [("command", "start_listening")] =
      (listeningState, [("status", .str "started")]) := by
  exact (start_listening_idempotent listeningState).1 rfl

/-- Whenever the loop exits, the `finally` block has cleared the flag. -/
theorem runLoop_exit_flag : ∀ (evs : List LoopEvent) (s s2 : MicState)
    (k : ExitKind), runLoop s evs = some (s2, k) → s2.is_listening = false := by
  intro evs
  induction evs with
  | nil =>
      intro s s2 k h
      by_cases hl : s.is_listening <;> simp [runLoop, hl] at h
      exact (congrArg MicState.is_listening h.1).symm
  | cons e rest ih =>
      intro s s2 k h
      by_cases hl : s.is_listening
      · cases e with
        | speech now sp cl =>
            simp only [runLoop, hl, if_true] at h
            exact ih _ _ _ h
        | cancelled =>
            simp [runLoop, hl] at h
            exact (congrArg MicState.is_listening h.1).symm
        | fatal =>
            simp [runLoop, hl] at h
            exact (congrArg MicState.is_listening h.1).symm
        | externalStop =>
            simp only [runLoop, hl, if_true] at h
            exact ih _ _ _ h
      · simp [runLoop, hl] at h
        exact (congrArg MicState.is_listening h.1).symm

/-- C9: on every exit path of the listen loop — cancellation, a fault
escaping the per-iteration guard, or a normal exit after the flag was
cleared externally — `is_listening` is false in the final state, and
cancellation of a running loop is a clean exit (`cancelledClean`, not a
fault). -/
theorem loop_clears_liveness (s : MicState) (evs : List LoopEvent)
    (s2 : MicState) (k : ExitKind) (h : runLoop s evs = some (s2, k)) :
    s2.is_listening = false ∧
    (s.is_listening = true →
      ∀ rest, runLoop s (.cancelled :: rest) =
        some ({ s with is_listening := false }, .cancelledClean)) := by
  refine ⟨runLoop_exit_flag evs s s2 k h, fun hl rest => ?_⟩
  simp [runLoop, hl]

/-- Witness for C9: a cancelled run ends with the flag cleared. -/
theorem loop_clears_liveness_witness :
    runLoop listeningState [.cancelled] =
      some ({ listeningState with is_listening := false }, .cancelledClean) ∧
    ({ listeningState with is_listening := false } : MicState).is_listening
      = false := by
  have h := loop_clears_liveness listeningState [.cancelled]
    { listeningState with is_listening := false } .cancelledClean rfl
  exact ⟨h.2 rfl [], h.1⟩

/-- Characterization of a speech binding that did not raise. -/
theorem bindSpeech_none_cases (s s2 : MicState) (name : Option String)
    (deps : List (String × Nat)) (h : bindSpeech s name deps = (s2, none)) :
    (truthyName name = false ∧ s2 = s) ∨
    (∃ n r, name = some n ∧ n.isEmpty = false ∧ alookup n deps = some r ∧
      s2 = { s with speech_service := some r }) := by
  rcases name with _ | n
  · simp [bindSpeech] at h
    exact .inl ⟨rfl, h.symm⟩
  · by_cases he : n.isEmpty
    · simp [bindSpeech, he] at h
      exact .inl ⟨by simp [truthyName, he], h.symm⟩
    · rcases hlk : alookup n deps with _ | r
      · simp [bindSpeech, he, hlk] at h
      · simp [bindSpeech, he, hlk] at h
        exact .inr ⟨n, r, rfl, by simp [he], hlk, h.symm⟩

/-- Characterization of a sentiment binding that did not raise. -/
theorem bindSentiment_none_cases (s s2 : MicState) (name : Option String)
    (deps : List (String × Nat)) (h : bindSentiment s name deps = (s2, none)) :
    (truthyName name = false ∧ s2 = s) ∨
    (∃ n r, name = some n ∧ n.isEmpty = false ∧ alookup n deps = some r ∧
      s2 = { s with sentiment_service := some r }) := by
  rcases name with _ | n
  · simp [bindSentiment] at h
    exact .inl ⟨rfl, h.symm⟩
  · by_cases he : n.isEmpty
    · simp [bindSentiment, he] at h
      exact .inl ⟨by simp [truthyName, he], h.symm⟩
    · rcases hlk : alookup n deps with _ | r
      · simp [bindSentiment, he, hlk] at h
      · simp [bindSentiment, he, hlk] at h
        exact .inr ⟨n, r, rfl, by simp [he], hlk, h.symm⟩

/-- A speech binding that raised leaves the state unchanged. -/
theorem bindSpeech_err_state (s s2 : MicState) (name : Option String)
    (deps : List (String × Nat)) (e : ConfigError)
    (h : bindSpeech s name deps = (s2, some e)) : s2 = s := by
  rcases name with _ | n
  · simp [bindSpeech] at h
  · by_cases he : n.isEmpty
    · simp [bindSpeech, he] at h
    · rcases hlk : alookup n deps with _ | r
      · simp [bindSpeech, he, hlk] at h
        exact h.1.symm
      · simp [bindSpeech, he, hlk] at h

/-- A sentiment binding that raised leaves the state unchanged. -/
theorem bindSentiment_err_state (s s2 : MicState) (name : Option String)
    (deps : List (String × Nat)) (e : ConfigError)
    (h : bindSentiment s name deps = (s2, some e)) : s2 = s := by
  rcases name with _ | n
  · simp [bindSentiment] at h
  · by_cases he : n.isEmpty
    · simp [bindSentiment, he] at h
    · rcases hlk : alookup n deps with _ | r
      · simp [bindSentiment, he, hlk] at h
        exact h.1.symm
      · simp [bindSentiment, he, hlk] at h

/-- `reconfigure` either leaves the loop bookkeeping untouched (changing at
most the two bindings and the expiration window) or, when it succeeds on a
non-listening component, additionally starts the loop. -/
theorem reconfigure_shape (s : MicState) (cfg : ComponentConfig)
    (deps : List (String × Nat)) :
    (∃ sp se ex, (reconfigure s cfg deps).1 =
        { s with speech_service := sp, sentiment_service := se,
                 reading_expiration_seconds := ex }) ∨
    ((reconfigure s cfg deps).2 = .ok () ∧ s.is_listening = false ∧
      ∃ sp se ex, (reconfigure s cfg deps).1 =
        start_listening { s with speech_service := sp, sentiment_service := se,
                                 reading_expiration_seconds := ex }) := by
  unfold reconfigure
  split
  · rename_i s2 e heq
    have hs2 := bindSpeech_err_state _ _ _ _ _ heq
    exact .inl ⟨s.speech_service, s.sentiment_service,
      cfg.reading_expiration_seconds.getD 20, hs2⟩
  · rename_i s2 heq
    split
    · rename_i s3 e heq2
      have hs3 := bindSentiment_err_state _ _ _ _ _ heq2
      rcases bindSpeech_none_cases _ _ _ _ heq with ⟨-, hs2⟩ | ⟨n, r, -, -, -, hs2⟩
      · exact .inl ⟨s.speech_service, s.sentiment_service,
          cfg.reading_expiration_seconds.getD 20, by rw [hs3, hs2]⟩
      · exact .inl ⟨some r, s.sentiment_service,
          cfg.reading_expiration_seconds.getD 20, by rw [hs3, hs2]⟩
    · rename_i s3 heq2
      have hshape3 : ∃ sp se, s3 =
          { s with speech_service := sp, sentiment_service := se,
                   reading_expiration_seconds :=
                     cfg.reading_expiration_seconds.getD 20 } := by
        rcases bindSpeech_none_cases _ _ _ _ heq with ⟨-, hs2⟩ | ⟨n, r, -, -, -, hs2⟩ <;>
          rcases bindSentiment_none_cases _ _ _ _ heq2 with
            ⟨-, hs3⟩ | ⟨m, r2, -, -, -, hs3⟩ <;> subst hs2 <;> subst hs3
        · exact ⟨s.speech_service, s.sentiment_service, rfl⟩
        · exact ⟨s.speech_service, some r2, rfl⟩
        · exact ⟨some r, s.sentiment_service, rfl⟩
        · exact ⟨some r, some r2, rfl⟩
      obtain ⟨sp, se, hs3⟩ := hshape3
      by_cases h1 : s3.speech_service = none
      · rw [if_pos h1]
        exact .inl ⟨sp, se, cfg.reading_expiration_seconds.getD 20, hs3⟩
      · rw [if_neg h1]
        by_cases h2 : s3.sentiment_service = none
        · rw [if_pos h2]
          exact .inl ⟨sp, se, cfg.reading_expiration_seconds.getD 20, hs3⟩
        · rw [if_neg h2]
          by_cases hl : s3.is_listening
          · rw [if_pos hl]
            exact .inl ⟨sp, se, cfg.reading_expiration_seconds.getD 20, hs3⟩
          · rw [if_neg hl]
            refine .inr ⟨rfl, ?_, sp, se, cfg.reading_expiration_seconds.getD 20,
              by rw [hs3]⟩
            simp only [Bool.not_eq_true] at hl
            rw [hs3] at hl
            exact hl

/-- A successful `reconfigure` required every configured dependency name to
resolve, and every dependency left unconfigured to have been bound already. -/
theorem reconfigure_ok_resolves (s : MicState) (cfg : ComponentConfig)
    (deps : List (String × Nat)) (h : (reconfigure s cfg deps).2 = .ok ()) :
    (truthyName cfg.speech_service = false → s.speech_service ≠ none) ∧
    (∀ n, cfg.speech_service = some n → n.isEmpty = false →
      alookup n deps ≠ none) ∧
    (truthyName cfg.sentiment_service = false → s.sentiment_service ≠ none) ∧
    (∀ n, cfg.sentiment_service = some n → n.isEmpty = false →
      alookup n deps ≠ none) := by
  unfold reconfigure at h
  split at h
  · simp at h
  · rename_i s2 heq
    split at h
    · simp at h
    · rename_i s3 heq2
      have hchecks : s3.speech_service ≠ none ∧ s3.sentiment_service ≠ none := by
        by_cases h1 : s3.speech_service = none
        · rw [if_pos h1] at h
          simp at h
        · by_cases h2 : s3.sentiment_service = none
          · rw [if_neg h1, if_pos h2] at h
            simp at h
          · exact ⟨h1, h2⟩
      rcases bindSpeech_none_cases _ _ _ _ heq with
          ⟨htA, hs2⟩ | ⟨n, r, hnA, hneA, hlkA, hs2⟩ <;>
        rcases bindSentiment_none_cases _ _ _ _ heq2 with
          ⟨htC, hs3⟩ | ⟨m, r2, hmC, hmeC, hlkC, hs3⟩ <;>
        subst hs2 <;> subst hs3
      · refine ⟨fun _ => hchecks.1, fun n hn1 hn2 => ?_, fun _ => hchecks.2,
          fun m hm1 hm2 => ?_⟩
        · rw [hn1] at htA
          simp [truthyName, hn2] at htA
        · rw [hm1] at htC
          simp [truthyName, hm2] at htC
      · refine ⟨fun _ => hchecks.1, fun n hn1 hn2 => ?_, fun htf => ?_,
          fun m2 hm1 hm2 => ?_⟩
        · rw [hn1] at htA
          simp [truthyName, hn2] at htA
        · rw [hmC] at htf
          simp [truthyName, hmeC] at htf
        · have hm2m : m2 = m := by
            rw [hmC] at hm1
            exact (Option.some.inj hm1).symm
          rw [hm2m, hlkC]
          simp
      · refine ⟨fun htf => ?_, fun n2 hn1 hn2 => ?_, fun _ => hchecks.2,
          fun m hm1 hm2 => ?_⟩
        · rw [hnA] at htf
          simp [truthyName, hneA] at htf
        · have hn2n : n2 = n := by
            rw [hnA] at hn1
            exact (Option.some.inj hn1).symm
          rw [hn2n, hlkA]
          simp
        · rw [hm1] at htC
          simp [truthyName, hm2] at htC
      · refine ⟨fun htf => ?_, fun n2 hn1 hn2 => ?_, fun htf => ?_,
          fun m2 hm1 hm2 => ?_⟩
        · rw [hnA] at htf
          simp [truthyName, hneA] at htf
        · have hn2n : n2 = n := by
            rw [hnA] at hn1
            exact (Option.some.inj hn1).symm
          rw [hn2n, hlkA]
          simp
        · rw [hmC] at htf
          simp [truthyName, hmeC] at htf
        · have hm2m : m2 = m := by
            rw [hmC] at hm1
            exact (Option.some.inj hm1).symm
          rw [hm2m, hlkC]
          simp

/-- A configuration pointing at fresh service bindings. -/
def newCfg : ComponentConfig :=
  { speech_service := some "speech2"
    sentiment_service := some "sentiment2"
    reading_expiration_seconds := some 30 }

/-- Dependencies resolving the fresh bindings. -/
def newDeps : List (String × Nat) := [("speech2", 7), ("sentiment2", 8)]

/-- C4 counterexample: reconfiguring a running component onto new service
bindings installs them while the old loop task keeps running — no
cancellation is requested and no fresh loop task is spawned, so the claim
"stops any existing running listen loop before applying the new bindings
and then starts a fresh loop" is false at this input. -/
theorem reconfigure_no_restart_counterexample :
    (reconfigure listeningState newCfg newDeps).2 = .ok () ∧
    (reconfigure listeningState newCfg newDeps).1.speech_service = some 7 ∧
    (reconfigure listeningState newCfg newDeps).1.sentiment_service = some 8 ∧
    (reconfigure listeningState newCfg newDeps).1.cancelRequests = 0 ∧
    (reconfigure listeningState newCfg newDeps).1.tasksSpawned =
      listeningState.tasksSpawned ∧
    (reconfigure listeningState newCfg newDeps).1.listening_task =
      listeningState.listening_task ∧
    (reconfigure listeningState newCfg newDeps).1.is_listening = true :=
  ⟨rfl, rfl, rfl, rfl, rfl, rfl, rfl⟩

/-- C4 amended: a reconfiguration that changes the service bindings applies
them in place without stopping a running loop (the loop picks them up on
its next iteration); while a loop is running it spawns no second task and
requests no cancellation, and in every case at most one loop is spawned —
so reconfiguration never leaves two listen-loop instances running
concurrently. -/
theorem reconfigure_single_loop (s : MicState) (cfg : ComponentConfig)
    (deps : List (String × Nat)) :
    (s.is_listening = true →
      (reconfigure s cfg deps).1.tasksSpawned = s.tasksSpawned ∧
      (reconfigure s cfg deps).1.listening_task = s.listening_task ∧
      (reconfigure s cfg deps).1.cancelRequests = s.cancelRequests ∧
      (reconfigure s cfg deps).1.is_listening = true) ∧
    (reconfigure s cfg deps).1.tasksSpawned ≤ s.tasksSpawned + 1 := by
  rcases reconfigure_shape s cfg deps with ⟨sp, se, ex, h⟩ | ⟨hok, hnl, sp, se, ex, h⟩
  · rw [h]
    exact ⟨fun hl => ⟨rfl, rfl, rfl, hl⟩, Nat.le_succ _⟩
  · rw [h]
    refine ⟨fun hl => ?_, ?_⟩
    · rw [hl] at hnl
      cases hnl
    · simp [start_listening, hnl]

/-- Witness for C4 amended: reconfiguring the running component changes
neither the spawned-task count nor the liveness flag. -/
theorem reconfigure_single_loop_witness :
    (reconfigure listeningState newCfg newDeps).1.tasksSpawned =
      listeningState.tasksSpawned ∧
    (reconfigure listeningState newCfg newDeps).1.is_listening = true := by
  have h := (reconfigure_single_loop listeningState newCfg newDeps).1 rfl
  exact ⟨h.1, h.2.2.2⟩

/-- C5: on a component that is not yet listening and has no bindings, a
reconfiguration whose required `speech_service` or `sentiment_service`
dependency is missing or unresolvable raises a configuration error, and the
component does not start listening: the flag stays false and no loop task is
spawned. -/
theorem reconfigure_missing_dep (s : MicState) (cfg : ComponentConfig)
    (deps : List (String × Nat)) (hl : s.is_listening = false)
    (hsp : s.speech_service = none) (hse : s.sentiment_service = none)
    (hmiss : truthyName cfg.speech_service = false ∨
      (∃ n, cfg.speech_service = some n ∧ n.isEmpty = false ∧
        alookup n deps = none) ∨
      truthyName cfg.sentiment_service = false ∨
      (∃ n, cfg.sentiment_service = some n ∧ n.isEmpty = false ∧
        alookup n deps = none)) :
    (∃ e, (reconfigure s cfg deps).2 = .error e) ∧
    (reconfigure s cfg deps).1.is_listening = false ∧
    (reconfigure s cfg deps).1.tasksSpawned = s.tasksSpawned ∧
    (reconfigure s cfg deps).1.listening_task = s.listening_task := by
  have herr : ∃ e, (reconfigure s cfg deps).2 = .error e := by
    rcases hr : (reconfigure s cfg deps).2 with e | u
    · exact ⟨e, rfl⟩
    · exfalso
      have hr2 : (reconfigure s cfg deps).2 = .ok () := by
        rw [hr]
      have hres := reconfigure_ok_resolves s cfg deps hr2
      rcases hmiss with hA | ⟨n, hn1, hn2, hn3⟩ | hC | ⟨n, hn1, hn2, hn3⟩
      · exact (hres.1 hA) hsp
      · exact (hres.2.1 n hn1 hn2) hn3
      · exact (hres.2.2.1 hC) hse
      · exact (hres.2.2.2 n hn1 hn2) hn3
  obtain ⟨e, he⟩ := herr
  rcases reconfigure_shape s cfg deps with ⟨sp, se, ex, h⟩ | ⟨hok, -, -⟩
  · rw [h]
    exact ⟨⟨e, he⟩, hl, rfl, rfl⟩
  · rw [hok] at he
    simp at he

/-- Witness for C5: a fresh component configured with an unresolvable
sentiment service fails reconfiguration and stays not-listening. -/
theorem reconfigure_missing_dep_witness :
    (∃ e, (reconfigure initState
        ⟨some "sp", some "missing", none⟩ [("sp", 1)]).2 = .error e) ∧
    (reconfigure initState
        ⟨some "sp", some "missing", none⟩ [("sp", 1)]).1.is_listening = false ∧
    (reconfigure initState
        ⟨some "sp", some "missing", none⟩ [("sp", 1)]).1.tasksSpawned = 0 := by
  have h := reconfigure_missing_dep initState ⟨some "sp", some "missing", none⟩
    [("sp", 1)] rfl rfl rfl (.inr (.inr (.inr ⟨"missing", rfl, rfl, rfl⟩)))
  exact ⟨h.1, h.2.1, h.2.2.1⟩

/-- C10: `reconfigure` updates state before validating: when the sentiment
dependency is missing on a fresh component, the call fails with the
missing-sentiment error, yet the expiration window has already been set to
the configured value (default 20 when unconfigured) and the speech binding
has already been installed — the error path leaves the component partially
reconfigured (though still not listening). -/
theorem reconfigure_partial_on_error (n : String) (e : Int) (ref : Nat)
    (deps : List (String × Nat)) (hn : n.isEmpty = false)
    (hdep : alookup n deps = some ref) :
    reconfigure initState ⟨some n, none, some e⟩ deps =
      ({ initState with reading_expiration_seconds := e,
                        speech_service := some ref },
       .error .missingSentiment) ∧
    (reconfigure initState ⟨some n, none, none⟩ deps).1.reading_expiration_seconds
      = 20 ∧
    (reconfigure initState ⟨some n, none, some e⟩ deps).1.is_listening
      = false := by
  refine ⟨?_, ?_, ?_⟩ <;>
    simp [reconfigure, bindSpeech, bindSentiment, hn, hdep, initState]

/-- Witness for C10 at a concrete configuration. -/
theorem reconfigure_partial_on_error_witness :
    reconfigure initState ⟨some "speech", none, some 5⟩ [("speech", 3)] =
      ({ initState with reading_expiration_seconds := 5,
                        speech_service := some 3 },
       .error .missingSentiment) := by
  exact (reconfigure_partial_on_error "speech" 5 3 [("speech", 3)]
    rfl rfl).1

end MicSentiment
